import Mathlib

/-!
Verification of the WhatsApp notification-dispatch subsystem of the
operating-room scheduling backend: the daily dispatch orchestrator
(`runDailyWhatsAppJob`), the status/reconciliation endpoint
(`GET /api/cron/whatsapp-status`), the two manual resend endpoints
(`POST /api/cron/whatsapp-resend`, `POST /api/whatsapp/resend`) and the
scheduled trigger gateway (`GET /api/cron/whatsapp-daily`).

The JavaScript source is embedded shallowly: database queries and the
outbound HTTP send are modelled as explicit environment functions, JS
`null`/`undefined` string fields as `Option String`, and JS string
truthiness (`x || '-'`, `x || null`, `if (x)`) as explicit tests against
`none` and the empty string.
-/

/-- One row of `pendaftaran_operasi` as selected by the WhatsApp endpoints.
Every column is nullable at the database level, hence `Option String`. -/
structure Surgery where
  nama_pasien : Option String := none
  no_rekam_medis : Option String := none
  dokter_operator : Option String := none
  dokter_anestesi : Option String := none
  jam_rencana_operasi : Option String := none
  jenis_operasi : Option String := none
  ruangan_rawat_inap : Option String := none
  diagnosis : Option String := none
  nomor_telp_1 : Option String := none
  nomor_telp_2 : Option String := none
  ruang_operasi : Option String := none
deriving Repr, DecidableEq

/-- One row of `mst_parameter` as selected by the destination lookups
(`param_value`, `param_name`). -/
structure MstParameter where
  param_value : Option String := none
  param_name : Option String := none
deriving Repr, DecidableEq

/-- Result of a supabase query: either an error (`sError`/`pError`/...)
carrying a message, or data. -/
inductive DbResult (α : Type) where
  | err (msg : String)
  | ok (data : α)
deriving Repr, DecidableEq

/-- JS template interpolation of a nullable string: a SQL `NULL` arrives as
JS `null` and interpolates as the text `"null"`. -/
def jsStr : Option String → String
  | none => "null"
  | some s => s

/-- JS `s || '-'` on a nullable string: `null` and `""` are falsy. -/
def orDash : Option String → String
  | none => "-"
  | some s => if s = "" then "-" else s

/-- JS `s || null` on a nullable string: collapses `""` to `null`. -/
def jsTruthy : Option String → Option String
  | none => none
  | some s => if s = "" then none else some s

/-- Grouping key of a surgery: `s.ruangan_rawat_inap || 'TIDAK DIKETAHUI'`
(the unknown-group sentinel; `null` and `""` are falsy). -/
def roomKey (s : Surgery) : String :=
  match s.ruangan_rawat_inap with
  | none => "TIDAK DIKETAHUI"
  | some r => if r = "" then "TIDAK DIKETAHUI" else r

/-- First-occurrence deduplication.  `Object.keys` of the JS
`reduce`-built grouping object lists each distinct key once, in first
insertion order: keep the head, deduplicate the tail, drop later copies
of the head. -/
def dedupFirst : List String → List String
  | [] => []
  | x :: xs => x :: (dedupFirst xs).filter (fun y => y ≠ x)

/-- `groupedByRoom[room]`: the surgeries of one grouping key, in query
order (the JS `reduce` pushes in list order). -/
def groupedByRoom (surgeries : List Surgery) (room : String) : List Surgery :=
  surgeries.filter (fun s => roomKey s = room)

/-- `uniqueRooms = Object.keys(groupedByRoom)`. -/
def uniqueRooms (surgeries : List Surgery) : List String :=
  dedupFirst (surgeries.map roomKey)

/-- `jam`: `s.jam_rencana_operasi ? s.jam_rencana_operasi.substring(0, 5) : '-'`. -/
def jamStr (o : Option String) : String :=
  match o with
  | none => "-"
  | some j => if j = "" then "-" else j.take 5

/-- One numbered per-event block of the orchestrator's message
(`runDailyWhatsAppJob`, the `lines` builder): patient name interpolated
directly, every other field with a `|| '-'` fallback, time truncated to
`HH:MM`, including the `Ruang OK` (operating location) line. -/
def cronLine (i : Nat) (s : Surgery) : String :=
  toString (i + 1) ++ ". " ++ jsStr s.nama_pasien ++ " (" ++ orDash s.no_rekam_medis ++ ")"
    ++ ("\n   Dokter Operator: " ++ orDash s.dokter_operator)
    ++ ("\n   Dokter Anestesi: " ++ orDash s.dokter_anestesi)
    ++ ("\n   Jam     : " ++ jamStr s.jam_rencana_operasi)
    ++ ("\n   Jenis   : " ++ orDash s.jenis_operasi)
    ++ ("\n   Telp 1  : " ++ orDash s.nomor_telp_1)
    ++ ("\n   Telp 2  : " ++ orDash s.nomor_telp_2)
    ++ ("\n   Ruang OK: " ++ orDash s.ruang_operasi)
    ++ ("\n   Diagnosis: " ++ orDash s.diagnosis)

/-- One numbered per-event block of `POST /api/cron/whatsapp-resend`
(its `lines` builder): same fields as `cronLine` except that the
`Ruang OK` line is absent (the handler does not even select
`ruang_operasi`). -/
def cronResendLine (i : Nat) (s : Surgery) : String :=
  toString (i + 1) ++ ". " ++ jsStr s.nama_pasien ++ " (" ++ orDash s.no_rekam_medis ++ ")"
    ++ ("\n   Dokter Operator: " ++ orDash s.dokter_operator)
    ++ ("\n   Dokter Anestesi: " ++ orDash s.dokter_anestesi)
    ++ ("\n   Jam     : " ++ jamStr s.jam_rencana_operasi)
    ++ ("\n   Jenis   : " ++ orDash s.jenis_operasi)
    ++ ("\n   Telp 1  : " ++ orDash s.nomor_telp_1)
    ++ ("\n   Telp 2  : " ++ orDash s.nomor_telp_2)
    ++ ("\n   Diagnosis: " ++ orDash s.diagnosis)

/-- One numbered per-event block of `POST /api/whatsapp/resend`
(its `lines` builder): textually identical to the orchestrator's. -/
def waResendLine (i : Nat) (s : Surgery) : String :=
  toString (i + 1) ++ ". " ++ jsStr s.nama_pasien ++ " (" ++ orDash s.no_rekam_medis ++ ")"
    ++ ("\n   Dokter Operator: " ++ orDash s.dokter_operator)
    ++ ("\n   Dokter Anestesi: " ++ orDash s.dokter_anestesi)
    ++ ("\n   Jam     : " ++ jamStr s.jam_rencana_operasi)
    ++ ("\n   Jenis   : " ++ orDash s.jenis_operasi)
    ++ ("\n   Telp 1  : " ++ orDash s.nomor_telp_1)
    ++ ("\n   Telp 2  : " ++ orDash s.nomor_telp_2)
    ++ ("\n   Ruang OK: " ++ orDash s.ruang_operasi)
    ++ ("\n   Diagnosis: " ++ orDash s.diagnosis)

/-- `lines = surgeries.map((s, i) => ...).join('\n\n')` for a given
per-event renderer. -/
def joinLines (line : Nat → Surgery → String) (surgeries : List Surgery) : String :=
  String.intercalate "\n\n" (surgeries.mapIdx line)

/-- Full message of the orchestrator for one room. -/
def cronMessage (displayName targetDate : String) (roomSurgeries : List Surgery) : String :=
  "Selamat pagi, " ++ displayName ++ "!\n\nInformasi jadwal operasi *H-2* (" ++ targetDate
    ++ "):\n\n" ++ joinLines cronLine roomSurgeries
    ++ "\n\nTotal: " ++ toString roomSurgeries.length ++ " operasi.\n\n_Pesan ini dikirim otomatis oleh SORA (Smart Operating Room Access)._"

/-- Full message of `POST /api/cron/whatsapp-resend`. -/
def cronResendMessage (displayName date : String) (surgeries : List Surgery) : String :=
  "Selamat pagi, " ++ displayName ++ "!\n\nInformasi jadwal operasi *H-2* (" ++ date
    ++ "):\n\n" ++ joinLines cronResendLine surgeries
    ++ "\n\nTotal: " ++ toString surgeries.length ++ " operasi.\n\n_Pesan ini dikirim otomatis via SORA (Manual Resend)._"

/-- Full message of `POST /api/whatsapp/resend` (no `*H-2*` framing). -/
def waResendMessage (displayName targetDate : String) (surgeries : List Surgery) : String :=
  "Selamat pagi, " ++ displayName ++ "!\n\nInformasi jadwal operasi (" ++ targetDate
    ++ "):\n\n" ++ joinLines waResendLine surgeries
    ++ "\n\nTotal: " ++ toString surgeries.length ++ " operasi.\n\n_Pesan ini dikirim otomatis via SORA (Manual Resend)._"

/-- Outcome of `sendWhatsAppMessage`: always a value, never an exception. -/
structure SendResult where
  success : Bool
  error : Option String := none
deriving Repr, DecidableEq

/-- `sendWhatsAppMessage(target, message)`: returns a failure result when
`FONNTE_TOKEN` is unset (or empty — JS falsy), catches any fetch/JSON
exception (`fetchOutcome = .error e`) and returns `success:false`;
otherwise `success = (result.status === true)`. -/
def sendWhatsAppMessage (token : Option String) (fetchOutcome : Except String Bool) : SendResult :=
  match token with
  | none => { success := false, error := some "FONNTE_TOKEN not set" }
  | some t =>
    if t = "" then { success := false, error := some "FONNTE_TOKEN not set" }
    else
      match fetchOutcome with
      | .error e => { success := false, error := some e }
      | .ok status => { success := status }

/-- One element of the `roomResults`/`details.rooms` list (a RoomResult).
Fields absent from a given JS object literal are `none`:
the `error`/`skipped` results carry only `room`, `status`, `reason`;
the `sent`/`send_failed` results carry `room`, `phone`, `status`,
`surgery_count` and the raw send response (`wa_response`, modelled by the
send success flag); a resend result additionally carries `resent_at`. -/
structure RoomResult where
  room : String
  phone : Option String := none
  status : String
  surgery_count : Option Nat := none
  wa_response : Option SendResult := none
  reason : Option String := none
  resent_at : Option String := none
deriving Repr, DecidableEq

/-- The structured details blob `{ targetDate, rooms }`. -/
structure Details where
  targetDate : Option String := none
  rooms : List RoomResult := []
deriving Repr, DecidableEq

/-- The stored `details` column content: either a JSON string that parses
back to the structured blob, or a malformed string on which `JSON.parse`
throws. -/
inductive StoredDetails where
  | malformed (raw : String)
  | parsed (d : Details)
deriving Repr, DecidableEq

/-- One row of `cron_job_logs` as read/written by this subsystem. -/
structure LogEntry where
  job_name : String
  status : String
  summary : Option String := none
  details : Option StoredDetails := none
  timestamp : Option String := none
deriving Repr, DecidableEq

/-- Environment of one orchestrator run: the target-date surgery query
result, the `mst_parameter` destination lookup per room name
(`.eq('param_type','RUANG_RAWAT_INAP').eq('param_name', roomName).eq('is_active', true).maybeSingle()`),
the outbound send (success flag of `sendWhatsAppMessage`), and whether the
initial `running` log insert succeeded (`logId` present). -/
structure CronEnv where
  surgeriesResult : DbResult (List Surgery)
  lookup : String → DbResult (Option MstParameter)
  send : String → String → Bool
  logInsertOk : Bool

/-- Body of the per-room loop of `runDailyWhatsAppJob`: returns the
RoomResult pushed for this room together with the sends performed
(`[(phone, message)]` when a send was attempted, `[]` otherwise). -/
def processRoom (env : CronEnv) (targetDate : String) (surgeries : List Surgery)
    (roomName : String) : RoomResult × List (String × String) :=
  match env.lookup roomName with
  | .err msg =>
      ({ room := roomName, status := "error",
         reason := some ("Error looking up param for room \"" ++ roomName ++ "\": " ++ msg) }, [])
  | .ok param =>
      match param with
      | none =>
          ({ room := roomName, status := "skipped",
             reason := some ("No phone number found for room \"" ++ roomName ++ "\" in mst_parameter, skipping.") }, [])
      | some p =>
          match p.param_value with
          | none =>
              ({ room := roomName, status := "skipped",
                 reason := some ("No phone number found for room \"" ++ roomName ++ "\" in mst_parameter, skipping.") }, [])
          | some v =>
              if v = "" then
                ({ room := roomName, status := "skipped",
                   reason := some ("No phone number found for room \"" ++ roomName ++ "\" in mst_parameter, skipping.") }, [])
              else
                let phoneNumber := v
                let displayName := match p.param_name with
                  | none => roomName
                  | some n => if n = "" then roomName else n
                let roomSurgeries := groupedByRoom surgeries roomName
                let message := cronMessage displayName targetDate roomSurgeries
                let ok := env.send phoneNumber message
                ({ room := roomName, phone := some phoneNumber,
                   status := if ok then "sent" else "send_failed",
                   surgery_count := some roomSurgeries.length,
                   wa_response := some { success := ok } }, [(phoneNumber, message)])

/-- The value returned by `runDailyWhatsAppJob`. -/
structure RunOutcome where
  status : String
  summary : String
  targetDate : Option String := none
  rooms : List RoomResult := []
  total_surgeries : Nat := 0
deriving Repr, DecidableEq

/-- Observable result of one orchestrator run: the returned outcome, the
final state of the run's log row (present exactly when the initial insert
succeeded), and all sends performed, in order. -/
structure RunResult where
  outcome : RunOutcome
  finalLog : Option LogEntry
  sends : List (String × String)
deriving Repr, DecidableEq

/-- `runDailyWhatsAppJob` for a given target date (the JS computes the
date from the clock as today + 2 in Asia/Jakarta; it is a parameter
here).  Mirrors the source: query error → log `error`, return error
outcome; zero surgeries → log `success` with a descriptive summary and
`details = null`, return immediately with no sends; otherwise group by
room, process each room independently, aggregate all RoomResults into the
final `success` log update. -/
def runDailyWhatsAppJob (env : CronEnv) (targetDate : String) : RunResult :=
  match env.surgeriesResult with
  | .err e =>
      { outcome := { status := "error", summary := "Job failed: " ++ e },
        finalLog :=
          if env.logInsertOk then
            some { job_name := "daily_whatsapp_notification", status := "error",
                   summary := some ("Job failed: " ++ e), details := none }
          else none,
        sends := [] }
  | .ok surgeries =>
      if surgeries.isEmpty then
        let msg := "No surgeries found for " ++ targetDate ++ ". No messages sent."
        { outcome := { status := "success", summary := msg, targetDate := some targetDate,
                       rooms := [], total_surgeries := 0 },
          finalLog :=
            if env.logInsertOk then
              some { job_name := "daily_whatsapp_notification", status := "success",
                     summary := some msg, details := none }
            else none,
          sends := [] }
      else
        let rooms := uniqueRooms surgeries
        let processed := rooms.map (processRoom env targetDate surgeries)
        let roomResults := processed.map Prod.fst
        let allSends := (processed.map Prod.snd).flatten
        let summary := "Job completed for " ++ targetDate ++ ". Rooms processed: "
          ++ toString rooms.length ++ ". Total surgeries: " ++ toString surgeries.length ++ "."
        { outcome := { status := "success", summary := summary, targetDate := some targetDate,
                       rooms := roomResults, total_surgeries := surgeries.length },
          finalLog :=
            if env.logInsertOk then
              some { job_name := "daily_whatsapp_notification", status := "success",
                     summary := some summary,
                     details := some (.parsed { targetDate := some targetDate, rooms := roomResults }) }
            else none,
          sends := allSends }

/-- The resend merge's upsert into `details.rooms`
(`const roomIdx = details.rooms.findIndex(r => r.room === room); if
(roomIdx >= 0) details.rooms[roomIdx] = resendStatus; else
details.rooms.push(resendStatus);`).  Identical code in both resend
handlers. -/
def upsertRoom (rooms : List RoomResult) (r : RoomResult) : List RoomResult :=
  match rooms.findIdx? (fun x => x.room == r.room) with
  | some roomIdx => rooms.set roomIdx r
  | none => rooms ++ [r]

/-- The details blob written back by a resend that matched an existing
log: start from the parsed stored details when they parse
(`JSON.parse` inside `try`), from `{}` when parsing throws or details is
`null` (`details = {}` / `latestLog.details || {}`), ensure `rooms`
exists, then upsert this resend's RoomResult. -/
def mergeDetails (old : Option StoredDetails) (r : RoomResult) : Details :=
  let base : Details :=
    match old with
    | some (.parsed d) => d
    | some (.malformed _) => {}
    | none => {}
  { base with rooms := upsertRoom base.rooms r }

/-- A write to `cron_job_logs` performed by a resend handler: either an
update of the matched row's `details`/`summary`, or an insert of a fresh
manual-resend row. -/
inductive LogWrite where
  | update (details : Details) (summaryAppended : String)
  | insert (entry : LogEntry)
deriving Repr, DecidableEq

/-- Environment of one resend request: the date+room surgery query, the
destination lookup, the send, and the most recent matching log row
(result of the `ilike('summary', date)` query). -/
structure ResendEnv where
  surgeriesFor : DbResult (List Surgery)
  lookup : String → DbResult (Option MstParameter)
  send : String → String → Bool
  latestLog : Option LogEntry

/-- Observable output of one resend request: the HTTP status code of the
response, the sends performed and the log write performed (if any). -/
structure ResendOutput where
  httpStatus : Nat
  sends : List (String × String) := []
  logWrite : Option LogWrite := none
deriving Repr, DecidableEq

/-- `POST /api/cron/whatsapp-resend` for supplied `date` and `room`
(body fields; `null`/missing/empty are falsy).  Mirrors the source:
missing input → 400; query error → 500; no surgeries → 404 `NotFound`;
lookup error → 500; no usable phone → 400; otherwise compose with
`cronResendLine`, send once, and merge the outcome into the matched log
(update) or insert a fresh manual log row.  `resentAt` stands for
`new Date().toISOString()`. -/
def whatsappResendCron (env : ResendEnv) (date room : Option String)
    (resentAt : String) : ResendOutput :=
  match jsTruthy date, jsTruthy room with
  | none, _ => { httpStatus := 400 }
  | _, none => { httpStatus := 400 }
  | some date, some room =>
    match env.surgeriesFor with
    | .err _ => { httpStatus := 500 }
    | .ok surgeries =>
      if surgeries.isEmpty then { httpStatus := 404 }
      else
        match env.lookup room with
        | .err _ => { httpStatus := 500 }
        | .ok param =>
          let phoneNumber? : Option String :=
            match param with
            | none => none
            | some p => jsTruthy p.param_value
          match phoneNumber? with
          | none => { httpStatus := 400 }
          | some phoneNumber =>
            let displayName := match param with
              | some p => (jsTruthy p.param_name).getD room
              | none => room
            let message := cronResendMessage displayName date surgeries
            let ok := env.send phoneNumber message
            let resendStatus : RoomResult :=
              { room := room, phone := some phoneNumber,
                status := if ok then "sent" else "send_failed",
                surgery_count := some surgeries.length,
                wa_response := some { success := ok },
                resent_at := some resentAt }
            let write : LogWrite :=
              match env.latestLog with
              | some latestLog =>
                  .update (mergeDetails latestLog.details resendStatus)
                    (" (Manual resend for " ++ room ++ ")")
              | none =>
                  .insert
                    { job_name := "daily_whatsapp_notification",
                      status := if ok then "success" else "error",
                      summary := some ("Manual resend for room " ++ room ++ " on date " ++ date),
                      details := some (.parsed { targetDate := some date, rooms := [resendStatus] }),
                      timestamp := some resentAt }
            { httpStatus := 200, sends := [(phoneNumber, message)], logWrite := some write }

/-- The value stored per room in the status endpoint's `logResults`
object (step 6 of the handler): `{ status, phone: r.phone || null,
reason: r.reason || null }`. -/
structure LogResultEntry where
  status : String
  phone : Option String
  reason : Option String
deriving Repr, DecidableEq

/-- `logResults` source list: the parsed `details.rooms` of the matched
log when a log exists, its details are non-null and they parse
(`JSON.parse` inside `try`/`catch`); `[]` otherwise. -/
def parseLogRooms (latestLog : Option LogEntry) : List RoomResult :=
  match latestLog with
  | none => []
  | some log =>
    match log.details with
    | none => []
    | some (.malformed _) => []
    | some (.parsed d) => d.rooms

/-- `logResults[room]`: the JS `forEach` assigns
`logResults[r.room] = {...}` so the last entry with this key wins. -/
def logResultsFor (rooms : List RoomResult) (room : String) : Option LogResultEntry :=
  match (rooms.filter (fun r => r.room == room)).getLast? with
  | none => none
  | some r => some { status := r.status, phone := jsTruthy r.phone, reason := jsTruthy r.reason }

/-- One element of the status endpoint's `rooms` response array. -/
structure StatusRoomResult where
  room : String
  surgery_count : Nat
  log_surgery_count : Nat
  has_updates : Bool
  status : String
  phone : Option String
  failure_reason : Option String
  last_attempt : Option String
deriving Repr, DecidableEq

/-- Step 7 of `GET /api/cron/whatsapp-status` for one room.
`roomCounts room` is the current event count; `roomPhones` the live
`mst_parameter` lookup map.  With a `logResults` entry: status and
phone/reason come from it, `logSurgeryCount` from the *first*
`details.rooms` entry for this room (`Array.find`), and `has_updates`
iff the logged status is `sent` and the current count exceeds the logged
count.  Without one: status `need_resend`, and `has_updates` iff the
current count is positive. -/
def buildRoomStatus (latestLog : Option LogEntry) (roomPhones : String → Option String)
    (roomCounts : String → Nat) (room : String) : StatusRoomResult :=
  let logRooms := parseLogRooms latestLog
  match logResultsFor logRooms room with
  | none =>
      { room := room, surgery_count := roomCounts room, log_surgery_count := 0,
        has_updates := decide (roomCounts room > 0), status := "need_resend",
        phone := jsTruthy (roomPhones room), failure_reason := none,
        last_attempt := match latestLog with | some l => l.timestamp | none => none }
  | some logEntry =>
      let roomLog := logRooms.find? (fun r => r.room == room)
      let logSurgeryCount := match roomLog with
        | some rl => rl.surgery_count.getD 0
        | none => 0
      let hasUpdates := logEntry.status == "sent" && decide (roomCounts room > logSurgeryCount)
      { room := room, surgery_count := roomCounts room, log_surgery_count := logSurgeryCount,
        has_updates := hasUpdates, status := logEntry.status,
        phone := match logEntry.phone with
          | some p => some p
          | none => jsTruthy (roomPhones room),
        failure_reason := logEntry.reason,
        last_attempt := match latestLog with | some l => l.timestamp | none => none }

/-- Current per-room event count of the status endpoint
(`roomCounts` built by `reduce` over the target-date surgeries). -/
def roomCountsOf (surgeries : List Surgery) (room : String) : Nat :=
  (surgeries.filter (fun s => roomKey s = room)).length

/-- The status endpoint's `rooms` response array: one record per distinct
room key of the current surgeries. -/
def whatsappStatusRooms (surgeries : List Surgery) (latestLog : Option LogEntry)
    (roomPhones : String → Option String) : List StatusRoomResult :=
  (uniqueRooms surgeries).map (buildRoomStatus latestLog roomPhones (roomCountsOf surgeries))

/-- A request to the scheduled trigger endpoint: the `authorization`
header and the `x-vercel-cron` header. -/
structure CronRequest where
  authorization : Option String
  xVercelCron : Option String
deriving Repr, DecidableEq

/-- Authorization test of `GET /api/cron/whatsapp-daily`:
`isVercelCron = (req.headers['x-vercel-cron'] === '1')`;
`isAuthorized = cronSecret && authHeader === "Bearer " + cronSecret`
(an unset or empty `CRON_SECRET` is falsy). -/
def whatsappDailyAuth (cronSecret : Option String) (req : CronRequest) : Bool :=
  let isVercelCron := req.xVercelCron == some "1"
  let isAuthorized :=
    match cronSecret with
    | none => false
    | some s => s ≠ "" && req.authorization == some ("Bearer " ++ s)
  isVercelCron || isAuthorized

/-- `GET /api/cron/whatsapp-daily`: rejected requests get 401 and no
orchestrator run; accepted requests invoke `runDailyWhatsAppJob`.
Returns (orchestrator invoked?, HTTP status). -/
def whatsappDailyHandler (cronSecret : Option String) (req : CronRequest) : Bool × Nat :=
  if whatsappDailyAuth cronSecret req then (true, 200) else (false, 401)

/-! ### Library lemmas about the embedded operations -/

theorem mem_dedupFirst {a : String} : ∀ {l : List String}, a ∈ dedupFirst l ↔ a ∈ l := by
  intro l
  induction l with
  | nil => simp [dedupFirst]
  | cons x xs ih =>
    by_cases h : a = x
    · subst h
      simp [dedupFirst]
    · simp only [dedupFirst, List.mem_cons, List.mem_filter]
      constructor
      · rintro (rfl | ⟨hmem, _⟩)
        · exact Or.inl rfl
        · exact Or.inr (ih.mp hmem)
      · rintro (rfl | hmem)
        · exact Or.inl rfl
        · exact Or.inr ⟨ih.mpr hmem, by simpa using h⟩

theorem nodup_dedupFirst : ∀ (l : List String), (dedupFirst l).Nodup := by
  intro l
  induction l with
  | nil => simp [dedupFirst]
  | cons x xs ih =>
    rw [dedupFirst, List.nodup_cons]
    constructor
    · intro hx
      rcases List.mem_filter.mp hx with ⟨_, hne⟩
      simp at hne
    · exact ih.filter _

/-- Extracting one summand from a sum over a duplicate-free key list. -/
theorem sum_map_extract (g : String → Nat) :
    ∀ (l : List String) (x : String), l.Nodup → x ∈ l →
      (l.map g).sum = g x + ((l.filter (fun y => y ≠ x)).map g).sum := by
  intro l
  induction l with
  | nil => intro x _ hx; cases hx
  | cons h t ih =>
    intro x hnd hx
    rw [List.nodup_cons] at hnd
    obtain ⟨hht, hnt⟩ := hnd
    rcases List.mem_cons.mp hx with rfl | hxt
    · have hfil : t.filter (fun y => y ≠ x) = t := by
        apply List.filter_eq_self.mpr
        intro a ha
        have hne : a ≠ x := fun e => hht (e ▸ ha)
        exact decide_eq_true hne
      have hhead : (x :: t).filter (fun y => y ≠ x) = t.filter (fun y => y ≠ x) := by
        apply List.filter_cons_of_neg
        simp
      simp only [hhead, hfil, List.map_cons, List.sum_cons]
    · have hhx : h ≠ x := fun e => hht (e ▸ hxt)
      have hhead : (h :: t).filter (fun y => y ≠ x) = h :: t.filter (fun y => y ≠ x) := by
        apply List.filter_cons_of_pos
        exact decide_eq_true hhx
      simp only [hhead, List.map_cons, List.sum_cons, ih x hnt hxt]
      omega

/-- The counts of the distinct keys of a list sum to its length. -/
theorem sum_count_dedupFirst : ∀ (m : List String),
    ((dedupFirst m).map (fun r => m.count r)).sum = m.length := by
  intro m
  induction m with
  | nil => simp [dedupFirst]
  | cons x xs ih =>
    simp only [dedupFirst, List.map_cons, List.sum_cons, List.count_cons_self, List.length_cons]
    have hrest : (((dedupFirst xs).filter (fun y => y ≠ x)).map (fun r => (x :: xs).count r)).sum
        = (((dedupFirst xs).filter (fun y => y ≠ x)).map (fun r => xs.count r)).sum := by
      apply congrArg
      apply List.map_congr_left
      intro a ha
      rcases List.mem_filter.mp ha with ⟨_, hne⟩
      have hax : a ≠ x := by simpa using hne
      rw [List.count_cons_of_ne hax]
    rw [hrest]
    by_cases hx : x ∈ xs
    · have hxd : x ∈ dedupFirst xs := mem_dedupFirst.mpr hx
      have hext := sum_map_extract (fun r => xs.count r) (dedupFirst xs) x (nodup_dedupFirst xs) hxd
      simp only [hext] at ih
      omega
    · have hc0 : xs.count x = 0 := List.count_eq_zero.mpr hx
      have hfil : (dedupFirst xs).filter (fun y => y ≠ x) = dedupFirst xs := by
        apply List.filter_eq_self.mpr
        intro a ha
        have hmem : a ∈ xs := mem_dedupFirst.mp ha
        have : a ≠ x := fun e => hx (e ▸ hmem)
        exact decide_eq_true this
      rw [hc0, hfil, ih]
      omega

/-- Per-room event counts over the distinct rooms sum to the total event
count (the grouping partitions the surgeries). -/
theorem sum_groupedByRoom_length (ss : List Surgery) :
    ((uniqueRooms ss).map (fun r => (groupedByRoom ss r).length)).sum = ss.length := by
  have hcount : ∀ (t : List Surgery) (r : String),
      (groupedByRoom t r).length = (t.map roomKey).count r := by
    intro t r
    induction t with
    | nil => rfl
    | cons s u ih =>
      unfold groupedByRoom at *
      by_cases h : roomKey s = r
      · simp [List.filter_cons, h, List.count_cons, ih]
      · simp [List.filter_cons, h, List.count_cons, ih, Ne.symm h]
  have h := sum_count_dedupFirst (ss.map roomKey)
  rw [List.length_map] at h
  rw [← h]
  unfold uniqueRooms
  apply congrArg
  apply List.map_congr_left
  intro r _
  exact hcount ss r

/-- One unfolding step of the resend upsert. -/
theorem upsertRoom_cons (x : RoomResult) (xs : List RoomResult) (r : RoomResult) :
    upsertRoom (x :: xs) r =
      if x.room = r.room then r :: xs else x :: upsertRoom xs r := by
  unfold upsertRoom
  rw [List.findIdx?_cons]
  by_cases h : x.room = r.room
  · simp [h]
  · have hb : (x.room == r.room) = false := by simpa using h
    rw [hb, if_neg (by simp), List.findIdx?_succ]
    cases hfi : List.findIdx? (fun y => y.room == r.room) xs with
    | none => simp [hfi, h]
    | some i => simp [hfi, h, List.set_cons_succ]

/-- The upsert never touches entries of other rooms: filtering the other
rooms out of the result gives exactly the other-room entries of the
input, unchanged and in order. -/
theorem filter_ne_upsertRoom (rooms : List RoomResult) (r : RoomResult) :
    (upsertRoom rooms r).filter (fun x => !(x.room == r.room)) =
      rooms.filter (fun x => !(x.room == r.room)) := by
  induction rooms with
  | nil =>
    show List.filter _ (upsertRoom [] r) = _
    rw [show upsertRoom [] r = [r] from rfl]
    simp [List.filter_cons]
  | cons x xs ih =>
    rw [upsertRoom_cons]
    by_cases h : x.room = r.room
    · rw [if_pos h]
      simp [List.filter_cons, h]
    · rw [if_neg h]
      simp [List.filter_cons, h, ih]

/-- Keys appearing after an upsert appeared before, or are the upserted
key. -/
theorem keys_upsertRoom_subset (rooms : List RoomResult) (r : RoomResult) :
    ∀ k, k ∈ (upsertRoom rooms r).map RoomResult.room →
      k = r.room ∨ k ∈ rooms.map RoomResult.room := by
  induction rooms with
  | nil =>
    intro k hk
    rw [show upsertRoom [] r = [r] from rfl] at hk
    simp at hk
    exact Or.inl hk
  | cons x xs ih =>
    intro k hk
    rw [upsertRoom_cons] at hk
    by_cases h : x.room = r.room
    · rw [if_pos h, List.map_cons, List.mem_cons] at hk
      rcases hk with hk | hk
      · exact Or.inl hk
      · exact Or.inr (by rw [List.map_cons, List.mem_cons]; exact Or.inr hk)
    · rw [if_neg h, List.map_cons, List.mem_cons] at hk
      rcases hk with hk | hk
      · exact Or.inr (by rw [List.map_cons, List.mem_cons]; exact Or.inl hk)
      · rcases ih k hk with h1 | h1
        · exact Or.inl h1
        · exact Or.inr (by rw [List.map_cons, List.mem_cons]; exact Or.inr h1)

/-- The upsert preserves the at-most-one-RoomResult-per-room invariant. -/
theorem nodup_keys_upsertRoom {rooms : List RoomResult} (r : RoomResult)
    (h : (rooms.map RoomResult.room).Nodup) :
    ((upsertRoom rooms r).map RoomResult.room).Nodup := by
  induction rooms with
  | nil =>
    rw [show upsertRoom [] r = [r] from rfl]
    simp
  | cons x xs ih =>
    rw [List.map_cons, List.nodup_cons] at h
    obtain ⟨hx, hxs⟩ := h
    rw [upsertRoom_cons]
    by_cases hh : x.room = r.room
    · rw [if_pos hh, List.map_cons, List.nodup_cons]
      exact ⟨hh ▸ hx, hxs⟩
    · rw [if_neg hh, List.map_cons, List.nodup_cons]
      refine ⟨?_, ih hxs⟩
      intro hmem
      rcases keys_upsertRoom_subset xs r x.room hmem with h1 | h1
      · exact hh h1
      · exact hx h1

/-- A list with no entry for a key filters to nothing on that key. -/
theorem filter_room_eq_nil {rooms : List RoomResult} {k : String}
    (h : k ∉ rooms.map RoomResult.room) :
    rooms.filter (fun x => x.room == k) = [] := by
  induction rooms with
  | nil => rfl
  | cons x xs ih =>
    rw [List.map_cons, List.mem_cons] at h
    push_neg at h
    obtain ⟨h1, h2⟩ := h
    rw [List.filter_cons_of_neg (by simpa using fun e => h1 e.symm)]
    exact ih h2

/-- Under the invariant, the room's entry after an upsert is exactly the
upserted record. -/
theorem filter_eq_upsertRoom {rooms : List RoomResult} (r : RoomResult)
    (h : (rooms.map RoomResult.room).Nodup) :
    (upsertRoom rooms r).filter (fun x => x.room == r.room) = [r] := by
  induction rooms with
  | nil =>
    rw [show upsertRoom [] r = [r] from rfl]
    simp [List.filter_cons]
  | cons x xs ih =>
    rw [List.map_cons, List.nodup_cons] at h
    obtain ⟨hx, hxs⟩ := h
    rw [upsertRoom_cons]
    by_cases hh : x.room = r.room
    · rw [if_pos hh, List.filter_cons_of_pos (by simp)]
      have : xs.filter (fun x => x.room == r.room) = [] :=
        filter_room_eq_nil (hh ▸ hx)
      rw [this]
    · rw [if_neg hh, List.filter_cons_of_neg (by simpa using hh)]
      exact ih hxs

/-- Upserting twice for the same room is the same as upserting the second
record once. -/
theorem upsertRoom_upsertRoom (rooms : List RoomResult) (r1 r2 : RoomResult)
    (hkey : r1.room = r2.room) :
    upsertRoom (upsertRoom rooms r1) r2 = upsertRoom rooms r2 := by
  induction rooms with
  | nil =>
    rw [show upsertRoom [] r1 = [r1] from rfl, upsertRoom_cons, if_pos hkey]
    rfl
  | cons x xs ih =>
    rw [upsertRoom_cons]
    by_cases h : x.room = r1.room
    · rw [if_pos h, upsertRoom_cons, if_pos hkey, upsertRoom_cons, if_pos (h.trans hkey)]
    · have h2 : ¬x.room = r2.room := fun e => h (e.trans hkey.symm)
      rw [if_neg h, upsertRoom_cons, if_neg h2, ih, upsertRoom_cons, if_neg h2]

/-- A room resolves iff its active destination lookup succeeds with a row
carrying a non-empty `param_value`. -/
def resolvesB (env : CronEnv) (room : String) : Bool :=
  match env.lookup room with
  | .ok (some p) =>
    match p.param_value with
    | some v => !(v == "")
    | none => false
  | _ => false

/-- Every branch of the per-room loop records the room name it was
invoked for. -/
theorem processRoom_room (env : CronEnv) (targetDate : String) (ss : List Surgery)
    (roomName : String) : (processRoom env targetDate ss roomName).1.room = roomName := by
  rcases hl : env.lookup roomName with msg | param
  · simp [processRoom, hl]
  · rcases param with _ | ⟨pv, pn⟩
    · simp [processRoom, hl]
    · rcases pv with _ | v
      · simp [processRoom, hl]
      · by_cases hv : v = "" <;> simp [processRoom, hl, hv]


/-- Status of a room that does not resolve: `error` on a lookup error,
`skipped` otherwise. -/
theorem processRoom_status_of_not_resolves (env : CronEnv) (targetDate : String)
    (ss : List Surgery) (roomName : String) (h : resolvesB env roomName = false) :
    (processRoom env targetDate ss roomName).1.status = "skipped"
      ∨ (processRoom env targetDate ss roomName).1.status = "error" := by
  rcases hl : env.lookup roomName with msg | param
  · simp [processRoom, hl]
  · rcases param with _ | ⟨pv, pn⟩
    · simp [processRoom, hl]
    · rcases pv with _ | v
      · simp [processRoom, hl]
      · have hv : v = "" := by simpa [resolvesB, hl] using h
        simp [processRoom, hl, hv]


/-- Status and recorded count of a room that resolves. -/
theorem processRoom_of_resolves (env : CronEnv) (targetDate : String)
    (ss : List Surgery) (roomName : String) (h : resolvesB env roomName = true) :
    ((processRoom env targetDate ss roomName).1.status = "sent"
      ∨ (processRoom env targetDate ss roomName).1.status = "send_failed")
    ∧ (processRoom env targetDate ss roomName).1.surgery_count
        = some (groupedByRoom ss roomName).length := by
  rcases hl : env.lookup roomName with msg | param
  · simp [resolvesB, hl] at h
  · rcases param with _ | ⟨pv, pn⟩
    · simp [resolvesB, hl] at h
    · rcases pv with _ | v
      · simp [resolvesB, hl] at h
      · have hv : ¬v = "" := by simpa [resolvesB, hl] using h
        by_cases hok : env.send v (cronMessage
            (match pn with
              | none => roomName
              | some n => if n = "" then roomName else n) targetDate
            (groupedByRoom ss roomName)) = true
        · simp [processRoom, hl, hv, hok]
        · simp [processRoom, hl, hv, hok]


/-- Filtering a keyed map over a duplicate-free key list on one present
key yields exactly that key's image. -/
theorem filter_map_key (f : String → RoomResult) (hf : ∀ k, (f k).room = k) :
    ∀ (keys : List String) (r : String), keys.Nodup → r ∈ keys →
      (keys.map f).filter (fun x => x.room == r) = [f r] := by
  intro keys
  induction keys with
  | nil => intro r _ hr; cases hr
  | cons k ks ih =>
    intro r hnd hr
    rw [List.nodup_cons] at hnd
    obtain ⟨hk, hks⟩ := hnd
    rcases List.mem_cons.mp hr with rfl | hmem
    · rw [List.map_cons, List.filter_cons_of_pos (by simp [hf])]
      have : (ks.map f).filter (fun x => x.room == r) = [] := by
        rw [List.filter_eq_nil_iff]
        intro a ha
        rcases List.mem_map.mp ha with ⟨b, hb, rfl⟩
        simp only [hf, beq_iff_eq]
        exact fun e => hk (e ▸ hb)
      rw [this]
    · have hkr : ¬(f k).room == r := by
        simp only [hf, beq_iff_eq]
        exact fun e => hk (e ▸ hmem)
      rw [List.map_cons, List.filter_cons_of_neg (by simpa using hkr)]
      exact ih r hks hmem

/-- On a non-empty query result the logged RoomResults are the per-room
loop results over the distinct rooms. -/
theorem runDailyWhatsAppJob_rooms (env : CronEnv) (targetDate : String) (ss : List Surgery)
    (hss : env.surgeriesResult = .ok ss) (hne : ss ≠ []) :
    (runDailyWhatsAppJob env targetDate).outcome.rooms
      = (uniqueRooms ss).map (fun r => (processRoom env targetDate ss r).1) := by
  have hempty : ss.isEmpty = false := by
    cases ss with
    | nil => exact absurd rfl hne
    | cons a t => rfl
  unfold runDailyWhatsAppJob
  rw [hss]
  simp only [hempty, Bool.false_eq_true, if_false, List.map_map]
  rfl

/-- The logged RoomResults carry exactly the distinct room keys, in
order. -/
theorem runDailyWhatsAppJob_rooms_keys (env : CronEnv) (targetDate : String) (ss : List Surgery)
    (hss : env.surgeriesResult = .ok ss) (hne : ss ≠ []) :
    (runDailyWhatsAppJob env targetDate).outcome.rooms.map RoomResult.room = uniqueRooms ss := by
  rw [runDailyWhatsAppJob_rooms env targetDate ss hss hne, List.map_map]
  have : (RoomResult.room ∘ fun r => (processRoom env targetDate ss r).1) = fun r => r := by
    funext r
    exact processRoom_room env targetDate ss r
  rw [this]
  exact List.map_id _

/-- Every run satisfies the at-most-one-RoomResult-per-room invariant of
the details it writes. -/
theorem runDailyWhatsAppJob_keys_nodup (env : CronEnv) (targetDate : String) :
    (((runDailyWhatsAppJob env targetDate).outcome.rooms).map RoomResult.room).Nodup := by
  rcases hss : env.surgeriesResult with msg | ss
  · simp [runDailyWhatsAppJob, hss]
  · rcases hne : ss with _ | ⟨a, t⟩
    · simp [runDailyWhatsAppJob, hss, hne]
    · rw [runDailyWhatsAppJob_rooms_keys env targetDate (a :: t) (hne ▸ hss) (by simp)]
      exact nodup_dedupFirst _

/-! ### Test fixtures for witnesses and counterexamples -/

/-- Fixture: one surgery in ward A. -/
def wardASurgery : Surgery :=
  { nama_pasien := some "BUDI", no_rekam_medis := some "RM1",
    jam_rencana_operasi := some "08:30:00", ruangan_rawat_inap := some "Ward A" }

/-- Fixture: a second surgery in ward A. -/
def wardASurgery2 : Surgery :=
  { nama_pasien := some "SITI", ruangan_rawat_inap := some "Ward A" }

/-- Fixture: one surgery in ward B. -/
def wardBSurgery : Surgery :=
  { nama_pasien := some "ANDI", ruangan_rawat_inap := some "Ward B" }

/-- Fixture: a surgery with every nullable field null. -/
def emptySurgery : Surgery := {}

/-- Fixture: a cron run whose destination lookup finds no active rule for
any room. -/
def noRuleCronEnv : CronEnv :=
  { surgeriesResult := .ok [wardASurgery], lookup := fun _ => .ok none,
    send := fun _ _ => true, logInsertOk := true }

/-- Fixture: a cron run where every room resolves and sends succeed. -/
def resolvingCronEnv : CronEnv :=
  { surgeriesResult := .ok [wardASurgery, wardASurgery2, wardBSurgery],
    lookup := fun r => .ok (some { param_value := some "0812000", param_name := some r }),
    send := fun _ _ => true, logInsertOk := true }

/-- Fixture: a cron run where ward A resolves but ward B has no active
rule. -/
def mixedCronEnv : CronEnv :=
  { surgeriesResult := .ok [wardASurgery, wardBSurgery],
    lookup := fun r => if r = "Ward A"
      then .ok (some { param_value := some "0812000", param_name := some "WARD A" })
      else .ok none,
    send := fun _ _ => true, logInsertOk := true }

/-- Fixture: a resend request environment with a matching surgery but no
active destination rule. -/
def noRuleResendEnv : ResendEnv :=
  { surgeriesFor := .ok [wardASurgery], lookup := fun _ => .ok none,
    send := fun _ _ => true, latestLog := none }

/-- Fixture: a resend request environment with no matching surgeries. -/
def emptyResendEnv : ResendEnv :=
  { surgeriesFor := .ok [], lookup := fun _ => .ok none,
    send := fun _ _ => true, latestLog := none }

/-- Fixture: RoomResult of a first delivery attempt for ward A. -/
def wardAFirstAttempt : RoomResult :=
  { room := "Ward A", phone := some "0812000", status := "send_failed",
    surgery_count := some 1, resent_at := some "T1" }

/-- Fixture: RoomResult of a second delivery attempt for ward A. -/
def wardASecondAttempt : RoomResult :=
  { room := "Ward A", phone := some "0812000", status := "sent",
    surgery_count := some 2, resent_at := some "T2" }

/-- Fixture: RoomResult of a delivery to ward B. -/
def wardBResult : RoomResult :=
  { room := "Ward B", phone := some "0813000", status := "sent", surgery_count := some 1 }

/-! ### Claims -/

/-- **C2** (confirmed).  The resend merge is idempotent per group: under
the at-most-one-RoomResult-per-room invariant, upserting two attempts for
the same room equals upserting only the second, the merged list holds
exactly one RoomResult for that room — the second attempt — and both the
resend upsert and every orchestrator run preserve the invariant. -/
theorem c2_resend_merge_idempotent (rooms : List RoomResult) (r1 r2 : RoomResult)
    (hkey : r1.room = r2.room)
    (hinv : (rooms.map RoomResult.room).Nodup) :
    upsertRoom (upsertRoom rooms r1) r2 = upsertRoom rooms r2
    ∧ (upsertRoom (upsertRoom rooms r1) r2).filter (fun x => x.room == r2.room) = [r2]
    ∧ (∀ r : RoomResult, ((upsertRoom rooms r).map RoomResult.room).Nodup)
    ∧ (∀ (env : CronEnv) (targetDate : String),
        (((runDailyWhatsAppJob env targetDate).outcome.rooms).map RoomResult.room).Nodup) := by
  refine ⟨upsertRoom_upsertRoom rooms r1 r2 hkey, ?_,
    fun r => nodup_keys_upsertRoom r hinv,
    fun env targetDate => runDailyWhatsAppJob_keys_nodup env targetDate⟩
  rw [upsertRoom_upsertRoom rooms r1 r2 hkey]
  exact filter_eq_upsertRoom r2 hinv

/-- **C2** witness: resending ward A twice into a log that already holds
a ward B result leaves exactly the second ward A attempt next to the
untouched ward B entry. -/
theorem c2_witness :
    upsertRoom (upsertRoom [wardBResult] wardAFirstAttempt) wardASecondAttempt
      = upsertRoom [wardBResult] wardASecondAttempt
    ∧ (upsertRoom (upsertRoom [wardBResult] wardAFirstAttempt) wardASecondAttempt).filter
        (fun x => x.room == wardASecondAttempt.room) = [wardASecondAttempt] := by
  have h := c2_resend_merge_idempotent [wardBResult] wardAFirstAttempt wardASecondAttempt
    rfl (by decide)
  exact ⟨h.1, h.2.1⟩

/-- **C6** (confirmed).  A run whose target-date query returns zero
events produces a `success` outcome with no RoomResults, a descriptive
summary, no sends, and (when the initial insert succeeded) finishes its
log row as `success` with null details. -/
theorem c6_zero_events (env : CronEnv) (targetDate : String)
    (hss : env.surgeriesResult = .ok []) :
    (runDailyWhatsAppJob env targetDate).outcome.status = "success"
    ∧ (runDailyWhatsAppJob env targetDate).outcome.rooms = []
    ∧ (runDailyWhatsAppJob env targetDate).outcome.total_surgeries = 0
    ∧ (runDailyWhatsAppJob env targetDate).outcome.summary
        = "No surgeries found for " ++ targetDate ++ ". No messages sent."
    ∧ (runDailyWhatsAppJob env targetDate).sends = []
    ∧ (env.logInsertOk = true →
        (runDailyWhatsAppJob env targetDate).finalLog
          = some { job_name := "daily_whatsapp_notification", status := "success",
                   summary := some ("No surgeries found for " ++ targetDate ++ ". No messages sent."),
                   details := none }) := by
  unfold runDailyWhatsAppJob
  rw [hss]
  refine ⟨rfl, rfl, rfl, rfl, rfl, fun h => ?_⟩
  simp [h]

/-- **C6** witness at a concrete empty-run environment. -/
theorem c6_witness :
    (runDailyWhatsAppJob
        { surgeriesResult := .ok [], lookup := fun _ => .ok none,
          send := fun _ _ => true, logInsertOk := true } "2025-01-03").outcome.status = "success"
    ∧ (runDailyWhatsAppJob
        { surgeriesResult := .ok [], lookup := fun _ => .ok none,
          send := fun _ _ => true, logInsertOk := true } "2025-01-03").sends = [] := by
  have h := c6_zero_events
    { surgeriesResult := .ok [], lookup := fun _ => .ok none,
      send := fun _ _ => true, logInsertOk := true } "2025-01-03" rfl
  exact ⟨h.1, h.2.2.2.2.1⟩

/-- **C9** (confirmed).  The scheduled trigger runs the orchestrator iff
the request carries the `x-vercel-cron: 1` marker or a bearer token equal
to a configured non-empty secret; otherwise it responds 401 without
running. -/
theorem c9_trigger_auth (cronSecret : Option String) (req : CronRequest) :
    ((whatsappDailyHandler cronSecret req).1 = true ↔
      (req.xVercelCron = some "1"
        ∨ ∃ s, cronSecret = some s ∧ s ≠ "" ∧ req.authorization = some ("Bearer " ++ s)))
    ∧ ((whatsappDailyHandler cronSecret req).1 = false →
        (whatsappDailyHandler cronSecret req).2 = 401) := by
  unfold whatsappDailyHandler whatsappDailyAuth
  rcases cronSecret with _ | s
  · by_cases hv : req.xVercelCron = some "1" <;> simp [hv]
  · by_cases hv : req.xVercelCron = some "1"
    · simp [hv]
    · by_cases hs : s = ""
      · simp [hv, hs]
      · by_cases ha : req.authorization = some ("Bearer " ++ s) <;> simp [hv, hs, ha]

/-- **C9** witness: the marker header alone authorizes; a wrong token
with no marker is rejected with 401. -/
theorem c9_witness :
    (whatsappDailyHandler (some "secret")
      { authorization := none, xVercelCron := some "1" }).1 = true
    ∧ (whatsappDailyHandler (some "secret")
        { authorization := some "Bearer wrong", xVercelCron := none }).2 = 401 := by
  constructor
  · exact (c9_trigger_auth (some "secret")
      { authorization := none, xVercelCron := some "1" }).1.mpr (Or.inl rfl)
  · exact (c9_trigger_auth (some "secret")
      { authorization := some "Bearer wrong", xVercelCron := none }).2 (by decide)

/-- **C10** (confirmed).  When the matched log's stored details parse,
the resend write-back leaves every other room's RoomResult unchanged (in
content and order); when they fail to parse, the written details contain
only the resent room's RoomResult, discarding everything previously
logged. -/
theorem c10_details_frame (old : Option StoredDetails) (r : RoomResult) :
    (∀ d : Details, old = some (.parsed d) →
      (mergeDetails old r).rooms.filter (fun x => !(x.room == r.room))
        = d.rooms.filter (fun x => !(x.room == r.room)))
    ∧ (∀ raw : String, old = some (.malformed raw) → (mergeDetails old r).rooms = [r]) := by
  constructor
  · rintro d rfl
    exact filter_ne_upsertRoom d.rooms r
  · rintro raw rfl
    rfl

/-- Fixture: parsed details holding a ward B result and a stale ward A
attempt. -/
def parsedWardDetails : Details :=
  { targetDate := some "2025-01-01", rooms := [wardBResult, wardAFirstAttempt] }

/-- **C10** witness: a parsed blob keeps the ward B entry; a malformed
blob is replaced wholesale by the single resent entry. -/
theorem c10_witness :
    (mergeDetails (some (.parsed parsedWardDetails)) wardASecondAttempt).rooms.filter
      (fun x => !(x.room == wardASecondAttempt.room)) = [wardBResult]
    ∧ (mergeDetails (some (.malformed "not json")) wardASecondAttempt).rooms
        = [wardASecondAttempt] := by
  have h := c10_details_frame (some (.parsed parsedWardDetails)) wardASecondAttempt
  have h2 := c10_details_frame (some (.malformed "not json")) wardASecondAttempt
  constructor
  · rw [h.1 parsedWardDetails rfl]
    decide
  · exact h2.2 "not json" rfl

/-- **C3** counterexample: a run over N = 1 event whose single room has
no active destination rule produces K = 1 RoomResult, but that
`skipped` RoomResult carries no `surgery_count`, so the counts sum to 0,
not to N. -/
theorem c3_counterexample :
    ((runDailyWhatsAppJob noRuleCronEnv "2025-01-01").outcome.rooms.map
        (fun x => x.surgery_count.getD 0)).sum = 0
    ∧ (runDailyWhatsAppJob noRuleCronEnv "2025-01-01").outcome.total_surgeries = 1
    ∧ (runDailyWhatsAppJob noRuleCronEnv "2025-01-01").outcome.rooms.length = 1 := by
  decide

/-- **C3** (corrected).  A run over a non-empty event list produces
exactly K RoomResults, one per distinct grouping key (sentinel
included), in key order; and the `surgery_count` fields sum to N
whenever every room resolves an active destination.  (A `skipped` or
`error` room's RoomResult records no `surgery_count`, so without that
proviso the sum counts only the resolved rooms' events.) -/
theorem c3_room_results_amended (env : CronEnv) (targetDate : String) (ss : List Surgery)
    (hss : env.surgeriesResult = .ok ss) (hne : ss ≠ []) :
    (runDailyWhatsAppJob env targetDate).outcome.rooms.length = (uniqueRooms ss).length
    ∧ (runDailyWhatsAppJob env targetDate).outcome.rooms.map RoomResult.room = uniqueRooms ss
    ∧ ((∀ r ∈ uniqueRooms ss, resolvesB env r = true) →
        ((runDailyWhatsAppJob env targetDate).outcome.rooms.map
          (fun x => x.surgery_count.getD 0)).sum = ss.length) := by
  refine ⟨?_, runDailyWhatsAppJob_rooms_keys env targetDate ss hss hne, ?_⟩
  · rw [runDailyWhatsAppJob_rooms env targetDate ss hss hne, List.length_map]
  · intro hres
    rw [runDailyWhatsAppJob_rooms env targetDate ss hss hne, List.map_map]
    have hcounts : ∀ r ∈ uniqueRooms ss,
        ((fun x => x.surgery_count.getD 0) ∘ fun r => (processRoom env targetDate ss r).1) r
          = (groupedByRoom ss r).length := by
      intro r hr
      have h := (processRoom_of_resolves env targetDate ss r (hres r hr)).2
      simp only [Function.comp_apply, h, Option.getD_some]
    rw [List.map_congr_left hcounts]
    exact sum_groupedByRoom_length ss

/-- **C3** witness: three events across two resolving rooms yield two
RoomResults whose counts sum to three. -/
theorem c3_witness :
    ((runDailyWhatsAppJob resolvingCronEnv "2025-01-01").outcome.rooms.map
        (fun x => x.surgery_count.getD 0)).sum = 3
    ∧ (runDailyWhatsAppJob resolvingCronEnv "2025-01-01").outcome.rooms.length = 2 := by
  have h := c3_room_results_amended resolvingCronEnv "2025-01-01"
    [wardASurgery, wardASurgery2, wardBSurgery] rfl (by decide)
  exact ⟨h.2.2 (by decide), by rw [h.1]; decide⟩

/-- **C4** (confirmed).  Within one run every distinct room gets exactly
one RoomResult, computed only from that room's own lookup and send
behaviour (so another room's failure cannot affect it); a room that does
not resolve is recorded `skipped` or `error`, and a room that resolves is
recorded `sent` or `send_failed` — a failed send yields `send_failed`
rather than aborting. -/
theorem c4_failure_isolation (env : CronEnv) (targetDate : String) (ss : List Surgery)
    (room : String) (hss : env.surgeriesResult = .ok ss) (hroom : room ∈ uniqueRooms ss) :
    ((runDailyWhatsAppJob env targetDate).outcome.rooms.filter (fun x => x.room == room))
        = [(processRoom env targetDate ss room).1]
    ∧ (∀ env' : CronEnv, env'.lookup room = env.lookup room → env'.send = env.send →
        (processRoom env' targetDate ss room).1 = (processRoom env targetDate ss room).1)
    ∧ (resolvesB env room = false →
        (processRoom env targetDate ss room).1.status = "skipped"
          ∨ (processRoom env targetDate ss room).1.status = "error")
    ∧ (resolvesB env room = true →
        (processRoom env targetDate ss room).1.status = "sent"
          ∨ (processRoom env targetDate ss room).1.status = "send_failed") := by
  have hne : ss ≠ [] := by
    intro h
    rw [h] at hroom
    cases hroom
  refine ⟨?_, ?_, processRoom_status_of_not_resolves env targetDate ss room,
    fun h => (processRoom_of_resolves env targetDate ss room h).1⟩
  · rw [runDailyWhatsAppJob_rooms env targetDate ss hss hne]
    exact filter_map_key (fun k => (processRoom env targetDate ss k).1)
      (processRoom_room env targetDate ss) (uniqueRooms ss) room
      (nodup_dedupFirst _) hroom
  · intro env' h1 h2
    unfold processRoom
    rw [h1, h2]

/-- **C4** witness: with ward B unresolvable, ward A still gets its own
`sent` RoomResult and ward B is recorded `skipped`. -/
theorem c4_witness :
    ((runDailyWhatsAppJob mixedCronEnv "2025-01-01").outcome.rooms.filter
        (fun x => x.room == "Ward A"))
      = [(processRoom mixedCronEnv "2025-01-01" [wardASurgery, wardBSurgery] "Ward A").1]
    ∧ ((runDailyWhatsAppJob mixedCronEnv "2025-01-01").outcome.rooms.filter
        (fun x => x.room == "Ward B"))
      = [(processRoom mixedCronEnv "2025-01-01" [wardASurgery, wardBSurgery] "Ward B").1]
    ∧ (processRoom mixedCronEnv "2025-01-01" [wardASurgery, wardBSurgery] "Ward A").1.status
        = "sent"
    ∧ (processRoom mixedCronEnv "2025-01-01" [wardASurgery, wardBSurgery] "Ward B").1.status
        = "skipped" := by
  have hA := c4_failure_isolation mixedCronEnv "2025-01-01" [wardASurgery, wardBSurgery]
    "Ward A" rfl (by decide)
  have hB := c4_failure_isolation mixedCronEnv "2025-01-01" [wardASurgery, wardBSurgery]
    "Ward B" rfl (by decide)
  exact ⟨hA.1, hB.1, by decide, by decide⟩

/-- **C5** counterexample: a resend for a date/group with one matching
event but no active destination rule responds 400 (a bad-request
condition), not 404 as the NotFound claim states — though it indeed
performs no send and no log write. -/
theorem c5_counterexample :
    whatsappResendCron noRuleResendEnv (some "2025-01-01") (some "Ward A") "T"
      = { httpStatus := 400, sends := [], logWrite := none }
    ∧ (whatsappResendCron noRuleResendEnv (some "2025-01-01") (some "Ward A") "T").httpStatus
        ≠ 404 := by
  decide
/-- **C5** (corrected).  With both inputs supplied: no matching events
gives 404 (NotFound) with no send and no log write; matching events but
no active rule resolving to a non-empty address gives 400 — not 404 —
likewise with no send and no log write. -/
theorem c5_resend_errors_amended (env : ResendEnv) (date room resentAt : String)
    (hd : date ≠ "") (hr : room ≠ "") :
    (env.surgeriesFor = .ok [] →
      whatsappResendCron env (some date) (some room) resentAt
        = { httpStatus := 404, sends := [], logWrite := none })
    ∧ (∀ ss param, env.surgeriesFor = .ok ss → ss ≠ [] → env.lookup room = .ok param →
        param.bind (fun p => jsTruthy p.param_value) = none →
        whatsappResendCron env (some date) (some room) resentAt
          = { httpStatus := 400, sends := [], logWrite := none }) := by
  have hjd : jsTruthy (some date) = some date := by simp [jsTruthy, hd]
  have hjr : jsTruthy (some room) = some room := by simp [jsTruthy, hr]
  constructor
  · intro hss
    unfold whatsappResendCron
    simp [hjd, hjr, hss]
  · intro ss param hss hne hlook hphone
    have hempty : ss.isEmpty = false := by
      cases ss with
      | nil => exact absurd rfl hne
      | cons a t => rfl
    unfold whatsappResendCron
    rcases param with _ | p
    · simp [hjd, hjr, hss, hempty, hlook]
    · have hpv : jsTruthy p.param_value = none := by simpa using hphone
      simp [hjd, hjr, hss, hempty, hlook, hpv]

/-- **C5** witness: a resend with no matching events responds 404 with no
send and no log write. -/
theorem c5_witness :
    whatsappResendCron emptyResendEnv (some "2025-01-01") (some "Ward A") "T"
      = { httpStatus := 404, sends := [], logWrite := none } :=
  (c5_resend_errors_amended emptyResendEnv "2025-01-01" "Ward A" "T"
    (by decide) (by decide)).1 rfl

/-- **C7** counterexample: for a concrete event the per-event block of
the manual resend endpoint (`POST /api/cron/whatsapp-resend`) differs
from the orchestrator's — the resend omits the `Ruang OK` line. -/
theorem c7_counterexample : cronResendLine 0 wardASurgery ≠ cronLine 0 wardASurgery := by
  decide

/-- **C7** (corrected).  The second resend endpoint
(`POST /api/whatsapp/resend`) renders per-event content identically to
the orchestrator; the cron resend endpoint's per-event block is the
orchestrator's with exactly the operating-location (`Ruang OK`) line
removed — all other event fields render identically. -/
theorem c7_render_equivalence_amended (i : Nat) (s : Surgery) :
    waResendLine i s = cronLine i s
    ∧ ∃ a b : String,
        cronLine i s = a ++ ("\n   Ruang OK: " ++ orDash s.ruang_operasi) ++ b
        ∧ cronResendLine i s = a ++ b := by
  refine ⟨rfl,
    toString (i + 1) ++ ". " ++ jsStr s.nama_pasien ++ " (" ++ orDash s.no_rekam_medis ++ ")"
      ++ ("\n   Dokter Operator: " ++ orDash s.dokter_operator)
      ++ ("\n   Dokter Anestesi: " ++ orDash s.dokter_anestesi)
      ++ ("\n   Jam     : " ++ jamStr s.jam_rencana_operasi)
      ++ ("\n   Jenis   : " ++ orDash s.jenis_operasi)
      ++ ("\n   Telp 1  : " ++ orDash s.nomor_telp_1)
      ++ ("\n   Telp 2  : " ++ orDash s.nomor_telp_2),
    "\n   Diagnosis: " ++ orDash s.diagnosis, rfl, rfl⟩

/-- **C7** witness at a concrete event: the decomposition instantiated
at `wardASurgery`. -/
theorem c7_witness : waResendLine 0 wardASurgery = cronLine 0 wardASurgery :=
  (c7_render_equivalence_amended 0 wardASurgery).1

/-- The dash fallback fires exactly on absent or empty fields. -/
theorem orDash_absent {o : Option String} (h : o = none ∨ o = some "") : orDash o = "-" := by
  rcases h with rfl | rfl <;> simp [orDash]

/-- A present non-empty field renders verbatim. -/
theorem orDash_present {o : Option String} {v : String} (h : o = some v) (hv : v ≠ "") :
    orDash o = v := by
  subst h
  simp [orDash, hv]

/-- An absent or empty time renders as a dash. -/
theorem jamStr_absent {o : Option String} (h : o = none ∨ o = some "") : jamStr o = "-" := by
  rcases h with rfl | rfl <;> simp [jamStr]

/-- A present non-empty time renders truncated to its first five
characters (`HH:MM`). -/
theorem jamStr_present {o : Option String} {v : String} (h : o = some v) (hv : v ≠ "") :
    jamStr o = v.take 5 := by
  subst h
  simp [jamStr, hv]

/-- **C8** counterexample: for an event with every nullable field null
the patient name renders as the JS text `null`, not as the placeholder
dash the claim requires for every absent field. -/
theorem c8_counterexample :
    cronLine 0 emptySurgery
      = "1. null (-)\n   Dokter Operator: -\n   Dokter Anestesi: -\n   Jam     : -\n   Jenis   : -\n   Telp 1  : -\n   Telp 2  : -\n   Ruang OK: -\n   Diagnosis: -"
    ∧ cronLine 0 emptySurgery
      ≠ "1. - (-)\n   Dokter Operator: -\n   Dokter Anestesi: -\n   Jam     : -\n   Jenis   : -\n   Telp 1  : -\n   Telp 2  : -\n   Ruang OK: -\n   Diagnosis: -" := by
  decide

/-- **C8** (corrected).  Every composed line block is the numbered header
followed by the labelled fields in order, where the record identifier,
both staff names, procedure type, both contact numbers, operating
location and diagnosis render as a dash exactly when absent or empty,
the time renders truncated to its first five characters (`HH:MM`) or as
a dash when absent, but the patient name is interpolated verbatim —
rendering as the text `null`, not a dash, when absent. -/
theorem c8_line_fields_amended (i : Nat) (s : Surgery) :
    ∃ nama rm op an jam jenis t1 t2 rok diag : String,
      cronLine i s =
        toString (i + 1) ++ ". " ++ nama ++ " (" ++ rm ++ ")"
          ++ ("\n   Dokter Operator: " ++ op)
          ++ ("\n   Dokter Anestesi: " ++ an)
          ++ ("\n   Jam     : " ++ jam)
          ++ ("\n   Jenis   : " ++ jenis)
          ++ ("\n   Telp 1  : " ++ t1)
          ++ ("\n   Telp 2  : " ++ t2)
          ++ ("\n   Ruang OK: " ++ rok)
          ++ ("\n   Diagnosis: " ++ diag)
      ∧ (s.nama_pasien = none → nama = "null")
      ∧ (∀ v, s.nama_pasien = some v → nama = v)
      ∧ ((s.no_rekam_medis = none ∨ s.no_rekam_medis = some "") → rm = "-")
      ∧ (∀ v, s.no_rekam_medis = some v → v ≠ "" → rm = v)
      ∧ ((s.dokter_operator = none ∨ s.dokter_operator = some "") → op = "-")
      ∧ (∀ v, s.dokter_operator = some v → v ≠ "" → op = v)
      ∧ ((s.dokter_anestesi = none ∨ s.dokter_anestesi = some "") → an = "-")
      ∧ (∀ v, s.dokter_anestesi = some v → v ≠ "" → an = v)
      ∧ ((s.jam_rencana_operasi = none ∨ s.jam_rencana_operasi = some "") → jam = "-")
      ∧ (∀ v, s.jam_rencana_operasi = some v → v ≠ "" → jam = v.take 5)
      ∧ ((s.jenis_operasi = none ∨ s.jenis_operasi = some "") → jenis = "-")
      ∧ (∀ v, s.jenis_operasi = some v → v ≠ "" → jenis = v)
      ∧ ((s.nomor_telp_1 = none ∨ s.nomor_telp_1 = some "") → t1 = "-")
      ∧ (∀ v, s.nomor_telp_1 = some v → v ≠ "" → t1 = v)
      ∧ ((s.nomor_telp_2 = none ∨ s.nomor_telp_2 = some "") → t2 = "-")
      ∧ (∀ v, s.nomor_telp_2 = some v → v ≠ "" → t2 = v)
      ∧ ((s.ruang_operasi = none ∨ s.ruang_operasi = some "") → rok = "-")
      ∧ (∀ v, s.ruang_operasi = some v → v ≠ "" → rok = v)
      ∧ ((s.diagnosis = none ∨ s.diagnosis = some "") → diag = "-")
      ∧ (∀ v, s.diagnosis = some v → v ≠ "" → diag = v) := by
  refine ⟨jsStr s.nama_pasien, orDash s.no_rekam_medis, orDash s.dokter_operator,
    orDash s.dokter_anestesi, jamStr s.jam_rencana_operasi, orDash s.jenis_operasi,
    orDash s.nomor_telp_1, orDash s.nomor_telp_2, orDash s.ruang_operasi,
    orDash s.diagnosis, rfl,
    fun h => by rw [h]; rfl,
    fun v h => by rw [h]; rfl,
    fun h => orDash_absent h, fun v h hv => orDash_present h hv,
    fun h => orDash_absent h, fun v h hv => orDash_present h hv,
    fun h => orDash_absent h, fun v h hv => orDash_present h hv,
    fun h => jamStr_absent h, fun v h hv => jamStr_present h hv,
    fun h => orDash_absent h, fun v h hv => orDash_present h hv,
    fun h => orDash_absent h, fun v h hv => orDash_present h hv,
    fun h => orDash_absent h, fun v h hv => orDash_present h hv,
    fun h => orDash_absent h, fun v h hv => orDash_present h hv,
    fun h => orDash_absent h, fun v h hv => orDash_present h hv⟩

/-- **C8** witness: the decomposition instantiated at a fully-null
event recovers the rendered block. -/
theorem c8_witness :
    cronLine 0 emptySurgery
      = "1. null (-)\n   Dokter Operator: -\n   Dokter Anestesi: -\n   Jam     : -\n   Jenis   : -\n   Telp 1  : -\n   Telp 2  : -\n   Ruang OK: -\n   Diagnosis: -" := by
  obtain ⟨nama, rm, op, an, jam, jenis, t1, t2, rok, diag, heq, h1, _, h2, _, h3, _, h4, _,
    h5, _, h6, _, h7, _, h8, _, h9, _, h10, _⟩ := c8_line_fields_amended 0 emptySurgery
  rw [heq, h1 rfl, h2 (Or.inl rfl), h3 (Or.inl rfl), h4 (Or.inl rfl), h5 (Or.inl rfl),
    h6 (Or.inl rfl), h7 (Or.inl rfl), h8 (Or.inl rfl), h9 (Or.inl rfl), h10 (Or.inl rfl)]
  decide

/-- **C1** counterexample: with one current event in ward A and no
matching log at all — hence no RoomResult with status `sent` for the
group — the status endpoint reports `has_updates = true`, where the
claim requires false. -/
theorem c1_counterexample :
    (whatsappStatusRooms [wardASurgery] none (fun _ => none)).map StatusRoomResult.has_updates
      = [true]
    ∧ (parseLogRooms none).filter (fun r => r.room == "Ward A" && r.status == "sent") = [] := by
  decide
/-- **C1** (corrected).  For a group present in the current data:
if the matched log carries a RoomResult for the group whose status is
not `sent`, `has_updates` is false; if it carries one with status
`sent`, `has_updates` is true exactly when the current count exceeds the
logged count; but when the log carries no RoomResult for the group at
all, `has_updates` is true exactly when the current count is positive —
not false as the claim's parenthetical requires. -/
theorem c1_has_updates_amended (surgeries : List Surgery) (latestLog : Option LogEntry)
    (roomPhones : String → Option String) (room : String)
    (hroom : room ∈ uniqueRooms surgeries) :
    (∀ e, logResultsFor (parseLogRooms latestLog) room = some e → e.status ≠ "sent" →
      (buildRoomStatus latestLog roomPhones (roomCountsOf surgeries) room).has_updates = false)
    ∧ (∀ e, logResultsFor (parseLogRooms latestLog) room = some e → e.status = "sent" →
      ((buildRoomStatus latestLog roomPhones (roomCountsOf surgeries) room).has_updates = true
        ↔ roomCountsOf surgeries room >
            (((parseLogRooms latestLog).find? (fun r => r.room == room)).bind
              (fun rl => rl.surgery_count)).getD 0))
    ∧ (logResultsFor (parseLogRooms latestLog) room = none →
      ((buildRoomStatus latestLog roomPhones (roomCountsOf surgeries) room).has_updates = true
        ↔ roomCountsOf surgeries room > 0)) := by
  have hX : (match (parseLogRooms latestLog).find? (fun r => r.room == room) with
        | some rl => rl.surgery_count.getD 0
        | none => 0)
      = (((parseLogRooms latestLog).find? (fun r => r.room == room)).bind
          (fun rl => rl.surgery_count)).getD 0 := by
    generalize (parseLogRooms latestLog).find? (fun r => r.room == room) = o
    rcases o with _ | rl
    · rfl
    · rfl
  refine ⟨?_, ?_, ?_⟩
  · intro e he hst
    have hb : (e.status == "sent") = false := by simpa using hst
    simp [buildRoomStatus, he, hb]
  · intro e he hst
    have hb : (e.status == "sent") = true := by simpa using hst
    simp only [buildRoomStatus, he, hb, Bool.true_and, decide_eq_true_eq, hX]
  · intro he
    simp [buildRoomStatus, he]

/-- Fixture: the logged RoomResult of a delivered ward A notification
covering one event. -/
def wardASentLogged : RoomResult :=
  { room := "Ward A", phone := some "0812000", status := "sent", surgery_count := some 1 }

/-- Fixture: a finished log row for 2025-01-01 whose details hold the
single delivered ward A result. -/
def sentWardALog : LogEntry :=
  { job_name := "daily_whatsapp_notification", status := "success",
    summary := some "Job completed for 2025-01-01. Rooms processed: 1. Total surgeries: 1.",
    details := some (.parsed { targetDate := some "2025-01-01", rooms := [wardASentLogged] }),
    timestamp := some "T1" }

/-- **C1** witness: two current ward A events against a `sent` log of
one event flag `has_updates`. -/
theorem c1_witness :
    (buildRoomStatus (some sentWardALog) (fun _ => none)
        (roomCountsOf [wardASurgery, wardASurgery2]) "Ward A").has_updates = true := by
  have h := c1_has_updates_amended [wardASurgery, wardASurgery2] (some sentWardALog)
    (fun _ => none) "Ward A" (by decide)
  exact (h.2.1 { status := "sent", phone := some "0812000", reason := none }
    (by decide) rfl).mpr (by decide)
